import Mathlib

/-!
Shallow embedding of the TealScan portfolio metrics engine (src/app.py):
fund-name classification, cash-flow construction, XIRR-status calculation,
rating, and the main per-holding aggregation loop.
Amounts and monetary values are modelled as rationals; dates as natural
numbers (calendar-day index); the external rate-of-return solver is a
parameter of the calculator.
-/

/-- Pattern `p` occurs at the start of `s` (character-wise). -/
def listHasPrefix : List Char → List Char → Bool
  | _, [] => true
  | [], _ :: _ => false
  | c :: s, d :: p => c == d && listHasPrefix s p

/-- Pattern `p` occurs somewhere inside `s`; Python's `p in s` on strings. -/
def listHasSub : List Char → List Char → Bool
  | [], p => p.isEmpty
  | c :: s, p => listHasPrefix (c :: s) p || listHasSub s p

/-- Python `p in s` substring test, on `String`. -/
def strContainsB (s p : String) : Bool := listHasSub s.data p.data

/-- Python `s.upper()` (ASCII case mapping, as used by the fund names). -/
def strUpper (s : String) : String := ⟨s.data.map Char.toUpper⟩

/-- src/app.py `get_asset_class`: broad asset class from the fund name. -/
def get_asset_class (fund_name : String) : String :=
  let name := strUpper fund_name
  if (["LIQUID", "OVERNIGHT", "BOND", "DEBT", "GILT", "TREASURY"]).any (fun x => strContainsB name x) then "Debt"
  else if (["GOLD", "SILVER", "COMMODITIES"]).any (fun x => strContainsB name x) then "Commodity"
  else if (["HYBRID", "BALANCED", "DYNAMIC"]).any (fun x => strContainsB name x) then "Hybrid"
  else "Equity"

/-- src/app.py `get_detailed_category`: sub-category from the fund name. -/
def get_detailed_category (fund_name : String) : String :=
  let name := strUpper fund_name
  if strContainsB name "SMALL CAP" then "Small Cap"
  else if strContainsB name "MID CAP" then "Mid Cap"
  else if strContainsB name "LARGE" && strContainsB name "MID" then "Large & Mid Cap"
  else if strContainsB name "LARGE CAP" then "Large Cap"
  else if strContainsB name "FLEXI" then "Flexi Cap"
  else if strContainsB name "ELSS" || strContainsB name "TAX SAVER" then "ELSS (Tax Saver)"
  else if strContainsB name "INDEX" then "Index Fund"
  else if strContainsB name "MULTI" then "Multi Cap"
  else if strContainsB name "VALUE" then "Value Fund"
  else "Other Equity"

/-- A transaction of a scheme: date, optional amount (a magnitude in currency
units, `none` when absent in the statement), free-text description. -/
structure Transaction where
  date : Nat
  amount : Option ℚ
  description : String
  deriving DecidableEq

/-- A scheme's valuation: current value and invested cost, either may be absent.
(Named `SchemeValuation` because `Valuation` is taken by the library.) -/
structure SchemeValuation where
  value : Option ℚ
  cost : Option ℚ
  deriving DecidableEq

/-- A holding (scheme): name, transaction list, valuation. -/
structure Scheme where
  scheme : String
  transactions : List Transaction
  valuation : SchemeValuation
  deriving DecidableEq

/-- A folio: a grouping of schemes. -/
structure Folio where
  schemes : List Scheme

/-- Outcome of the external `xirr` solver call: a converged annualized rate,
`None` (non-convergence), or a raised exception. -/
inductive SolverOutcome where
  | converged (r : ℚ)
  | noResult
  | raised

/-- Python truthiness of `t.amount` (`if t.amount`): present and non-zero. -/
def amountTruthy (a : Option ℚ) : Bool :=
  match a with
  | none => false
  | some q => q != 0

/-- src/app.py line 63: `sum([float(t.amount) for t in transactions if t.amount])`. -/
def invested_sum (transactions : List Transaction) : ℚ :=
  ((transactions.filter (fun t => amountTruthy t.amount)).map
    (fun t => t.amount.getD 0)).sum

/-- src/app.py lines 72-80: sign inference for one transaction's cash flow.
Money out is negative, money in positive, default is a purchase (negative). -/
def signedAmount (txn : Transaction) : ℚ :=
  let amt := txn.amount.getD 0
  let desc := strUpper txn.description
  if (["PURCHASE", "SIP", "SWITCH IN", "STP IN", "DIVIDEND"]).any (fun x => strContainsB desc x) then
    amt * (-1)
  else if (["REDEMPTION", "SWITCH OUT", "STP OUT", "SWP"]).any (fun x => strContainsB desc x) then
    amt * 1
  else
    amt * (-1)

/-- src/app.py lines 67-82: the transaction loop of `calculate_metrics`. Skips
zero-amount transactions, emits one dated signed entry for each other one. -/
def buildFlows : List Transaction → List (Nat × ℚ)
  | [] => []
  | txn :: rest =>
    if txn.amount.getD 0 = 0 then buildFlows rest
    else (txn.date, signedAmount txn) :: buildFlows rest

/-- src/app.py line 64: the partial-data (opening balance mismatch) test. -/
def partialDataCond (current_val total_cost inv : ℚ) : Bool :=
  decide (inv > 0) && decide (current_val / inv > 5) && decide (total_cost > inv)

/-- src/app.py lines 49-51: the absolute return from the valuation alone. -/
def abs_return_of (current_val total_cost : ℚ) : ℚ :=
  if total_cost > 0 then (current_val - total_cost) / total_cost * 100 else 0

/-- src/app.py `calculate_metrics`: returns `(xirr, absolute_return, status)`.
The external solver is a parameter; `today` is the pinned run date. A raised
solver exception is the modelled failure of the `try` block (caught, `"Error"`). -/
def calculate_metrics (solve : List (Nat × ℚ) → SolverOutcome) (today : Nat)
    (scheme : Scheme) : Option ℚ × ℚ × String :=
  let transactions := scheme.transactions
  let current_val := scheme.valuation.value.getD 0
  let total_cost := scheme.valuation.cost.getD 0
  let abs_return := abs_return_of current_val total_cost
  if transactions.isEmpty then (none, abs_return, "No History")
  else if partialDataCond current_val total_cost (invested_sum transactions) then
    (none, abs_return, "Partial Data")
  else
    match solve (buildFlows transactions ++ [(today, current_val)]) with
    | .raised => (none, abs_return, "Error")
    | .noResult => (none, abs_return, "Calc Error")
    | .converged res =>
      let xirr_val := res * 100
      if xirr_val > 100 ∨ xirr_val < -90 then (none, abs_return, "Data Mismatch")
      else (some xirr_val, abs_return, "OK")

/-- src/app.py `get_fund_rating`: rating from xirr with absolute-return fallback. -/
def get_fund_rating (xirr_val : Option ℚ) (abs_val : ℚ) : String :=
  let val := xirr_val.getD abs_val
  if val ≥ 20 then "🔥 IN-FORM"
  else if 12 ≤ val ∧ val < 20 then "✅ ON-TRACK"
  else if 0 < val ∧ val < 12 then "⚠️ OFF-TRACK"
  else "❌ OUT-OF-FORM"

/-- One row of the portfolio report (src/app.py lines 162-173), with numeric
fields kept unformatted. -/
structure Row where
  fundName : String
  category : String
  subCategory : String
  value : ℚ
  invested : ℚ
  planType : String
  xirr : Option ℚ
  absReturn : ℚ
  rating : String
  status : String

/-- Accumulated state of the main processing loop (src/app.py lines 136-139). -/
structure PState where
  rows : List Row
  total_curr : ℚ
  total_invested : ℚ
  total_commission_loss : ℚ

/-- src/app.py lines 149-173: the classifications, metrics, rating and report
row built for one included scheme. -/
def mkRow (solve : List (Nat × ℚ) → SolverOutcome) (today : Nat)
    (scheme : Scheme) : Row :=
  let name := scheme.scheme
  let m := calculate_metrics solve today scheme
  let is_regular := !(strContainsB (strUpper name) "DIRECT")
  { fundName := name, category := get_asset_class name,
    subCategory := get_detailed_category name,
    value := scheme.valuation.value.getD 0,
    invested := scheme.valuation.cost.getD 0,
    planType := (if is_regular then "Regular 🔴" else "Direct 🟢"),
    xirr := m.1, absReturn := m.2.1, rating := get_fund_rating m.1 m.2.1,
    status := m.2.2 }

/-- src/app.py lines 142-176: the body of the per-scheme loop. A scheme whose
current value is below 100 is skipped entirely. -/
def processScheme (solve : List (Nat × ℚ) → SolverOutcome) (today : Nat)
    (st : PState) (scheme : Scheme) : PState :=
  let valuation := scheme.valuation.value.getD 0
  let cost := scheme.valuation.cost.getD 0
  if valuation < 100 then st
  else
    let is_regular := !(strContainsB (strUpper scheme.scheme) "DIRECT")
    let loss := if is_regular then valuation * (1 / 100) else 0
    { rows := st.rows ++ [mkRow solve today scheme],
      total_curr := st.total_curr + valuation,
      total_invested := st.total_invested + cost,
      total_commission_loss := st.total_commission_loss + loss }

/-- The inner loop over one folio's schemes. -/
def processSchemes (solve : List (Nat × ℚ) → SolverOutcome) (today : Nat)
    (st : PState) (schemes : List Scheme) : PState :=
  schemes.foldl (processScheme solve today) st

/-- src/app.py lines 141-176: the loop over all folios of the statement. -/
def processFolios (solve : List (Nat × ℚ) → SolverOutcome) (today : Nat)
    (st : PState) (folios : List Folio) : PState :=
  folios.foldl (fun acc f => processSchemes solve today acc f.schemes) st

/-- Number of report rows in a given sub-category
(src/app.py line 241, `df['Sub-Category'].value_counts()`). -/
def subCatCount (rows : List Row) (cat : String) : Nat :=
  (rows.filter (fun r => r.subCategory == cat)).length

/-- A solver stub that always converges to rate `r` (used to instantiate the
solver parameter in concrete examples). -/
def solveConst (r : ℚ) : List (Nat × ℚ) → SolverOutcome := fun _ => .converged r

/-- A solver stub that never converges (`xirr` returns `None`). -/
def solveNone : List (Nat × ℚ) → SolverOutcome := fun _ => .noResult

/-- A solver stub that raises an exception on every input. -/
def solveRaise : List (Nat × ℚ) → SolverOutcome := fun _ => .raised

/-- A non-empty list has `isEmpty = false`. -/
theorem isEmpty_false_of_ne_nil {α : Type} {l : List α} (h : l ≠ []) :
    l.isEmpty = false := by
  cases l with
  | nil => exact absurd rfl h
  | cons a t => rfl

/-- The filtered sum of truthy amounts equals the sum of all amounts with
absent ones read as zero. -/
theorem invested_sum_eq_total_sum (txns : List Transaction) :
    invested_sum txns = (txns.map (fun t => t.amount.getD 0)).sum := by
  induction txns with
  | nil => rfl
  | cons t rest ih =>
    by_cases h : amountTruthy t.amount = true
    · simp only [invested_sum, List.filter_cons, h, if_true, List.map_cons,
        List.sum_cons]
      rw [← invested_sum, ih]
    · have h0 : t.amount.getD 0 = 0 := by
        cases ha : t.amount with
        | none => rfl
        | some q =>
          rw [ha] at h
          simp only [amountTruthy, bne_iff_ne, ne_eq, Decidable.not_not] at h
          simp [h]
      simp only [invested_sum, List.filter_cons, h, Bool.false_eq_true,
        if_false, List.map_cons, List.sum_cons, h0, zero_add]
      rw [← invested_sum, ih]

/-- C1, counterexample: the classifier checks "MID CAP" (line 29) before the
combined "LARGE"-and-"MID" rule (line 30), so the fund name "Large & Mid Cap" —
whose upper-cased form contains both "LARGE" and "MID" — classifies as
"Mid Cap", not "Large & Mid Cap", refuting the claim as stated. -/
theorem c1_counterexample :
    strContainsB (strUpper "Large & Mid Cap") "LARGE" = true ∧
    strContainsB (strUpper "Large & Mid Cap") "MID" = true ∧
    get_detailed_category "Large & Mid Cap" = "Mid Cap" ∧
    get_detailed_category "Large & Mid Cap" ≠ "Large & Mid Cap" := by
  decide

/-- C1, amended: a fund name whose upper-cased form contains both "LARGE" and
"MID" classifies as "Large & Mid Cap" only when it contains neither the
substring "SMALL CAP" nor the substring "MID CAP"; when it contains "MID CAP"
(and not "SMALL CAP") it classifies as "Mid Cap"; in every case such a name is
never classified "Large Cap". -/
theorem c1_large_and_mid_classification (fund_name : String)
    (hL : strContainsB (strUpper fund_name) "LARGE" = true)
    (hM : strContainsB (strUpper fund_name) "MID" = true) :
    (strContainsB (strUpper fund_name) "SMALL CAP" = false →
      strContainsB (strUpper fund_name) "MID CAP" = false →
      get_detailed_category fund_name = "Large & Mid Cap") ∧
    (strContainsB (strUpper fund_name) "SMALL CAP" = false →
      strContainsB (strUpper fund_name) "MID CAP" = true →
      get_detailed_category fund_name = "Mid Cap") ∧
    get_detailed_category fund_name ≠ "Large Cap" := by
  refine ⟨?_, ?_, ?_⟩
  · intro hS hMC
    simp [get_detailed_category, hS, hMC, hL, hM]
  · intro hS hMC
    simp [get_detailed_category, hS, hMC]
  · cases hS : strContainsB (strUpper fund_name) "SMALL CAP" with
    | true => simp [get_detailed_category, hS]
    | false =>
      cases hMC : strContainsB (strUpper fund_name) "MID CAP" with
      | true => simp [get_detailed_category, hS, hMC]
      | false => simp [get_detailed_category, hS, hMC, hL, hM]

/-- C1 witness: concrete fund names exercising both branches of the amended
claim. -/
theorem c1_witness :
    get_detailed_category "HDFC LARGE AND MIDCAP FUND" = "Large & Mid Cap" ∧
    get_detailed_category "SBI Large & Mid Cap Fund" = "Mid Cap" := by
  refine ⟨?_, ?_⟩
  · exact (c1_large_and_mid_classification "HDFC LARGE AND MIDCAP FUND"
      (by decide) (by decide)).1 (by decide) (by decide)
  · exact (c1_large_and_mid_classification "SBI Large & Mid Cap Fund"
      (by decide) (by decide)).2.1 (by decide) (by decide)

/-- C5: the rating engine selects `xirr` when present and `absolute_return`
otherwise, and rates the selected value `v` as IN-FORM when `v ≥ 20`, ON-TRACK
when `12 ≤ v < 20`, OFF-TRACK when `0 < v < 12` and OUT-OF-FORM when `v ≤ 0`;
in particular 20 rates IN-FORM, 12 rates ON-TRACK, 0 rates OUT-OF-FORM and
11.999 rates OFF-TRACK. -/
theorem c5_rating_engine (x : Option ℚ) (a : ℚ) :
    get_fund_rating x a = get_fund_rating none (x.getD a) ∧
    (x.getD a ≥ 20 → get_fund_rating x a = "🔥 IN-FORM") ∧
    (12 ≤ x.getD a → x.getD a < 20 → get_fund_rating x a = "✅ ON-TRACK") ∧
    (0 < x.getD a → x.getD a < 12 → get_fund_rating x a = "⚠️ OFF-TRACK") ∧
    (x.getD a ≤ 0 → get_fund_rating x a = "❌ OUT-OF-FORM") ∧
    get_fund_rating (some 20) a = "🔥 IN-FORM" ∧
    get_fund_rating (some 12) a = "✅ ON-TRACK" ∧
    get_fund_rating (some 0) a = "❌ OUT-OF-FORM" ∧
    get_fund_rating (some (11999 / 1000)) a = "⚠️ OFF-TRACK" := by
  refine ⟨by cases x <;> rfl, ?_, ?_, ?_, ?_, ?_, ?_, ?_, ?_⟩
  · intro h
    simp only [get_fund_rating]
    rw [if_pos h]
  · intro h1 h2
    simp only [get_fund_rating]
    rw [if_neg (by linarith), if_pos ⟨h1, h2⟩]
  · intro h1 h2
    simp only [get_fund_rating]
    rw [if_neg (by linarith), if_neg (by rintro ⟨h3, -⟩; linarith),
      if_pos ⟨h1, h2⟩]
  · intro h
    simp only [get_fund_rating]
    rw [if_neg (by linarith), if_neg (by rintro ⟨h3, -⟩; linarith),
      if_neg (by rintro ⟨h3, -⟩; linarith)]
  · simp only [get_fund_rating, Option.getD_some]
    rw [if_pos (by norm_num)]
  · simp only [get_fund_rating, Option.getD_some]
    rw [if_neg (by norm_num), if_pos (by norm_num)]
  · simp only [get_fund_rating, Option.getD_some]
    rw [if_neg (by norm_num), if_neg (by norm_num), if_neg (by norm_num)]
  · simp only [get_fund_rating, Option.getD_some]
    rw [if_neg (by norm_num), if_neg (by norm_num), if_pos (by norm_num)]

/-- C5 witness: the rating boundaries at concrete inputs. -/
theorem c5_witness :
    get_fund_rating (some 20) 0 = "🔥 IN-FORM" ∧
    get_fund_rating none 12 = "✅ ON-TRACK" := by
  constructor
  · exact (c5_rating_engine (some 20) 0).2.1 (by decide)
  · exact (c5_rating_engine none 12).2.2.1 (by decide) (by decide)

/-- C6: a holding with no transactions gets status "No History", no xirr, and
an absolute return computed from the valuation alone:
`(current_value - total_cost) / total_cost * 100` when the cost is positive
and `0` otherwise. -/
theorem c6_no_history (solve : List (Nat × ℚ) → SolverOutcome) (today : Nat)
    (s : Scheme) (h : s.transactions = []) :
    calculate_metrics solve today s =
      (none,
       (if s.valuation.cost.getD 0 > 0
        then (s.valuation.value.getD 0 - s.valuation.cost.getD 0) /
          s.valuation.cost.getD 0 * 100
        else 0),
       "No History") := by
  simp [calculate_metrics, abs_return_of, h]

/-- C6 witness: a concrete transactionless holding with cost 80 and value 100. -/
theorem c6_witness :
    calculate_metrics solveNone 5 ⟨"XYZ Bond Fund", [], ⟨some 100, some 80⟩⟩ =
      (none, ((100 : ℚ) - 80) / 80 * 100, "No History") :=
  c6_no_history solveNone 5 ⟨"XYZ Bond Fund", [], ⟨some 100, some 80⟩⟩ rfl

/-- C2: the cash-flow series handed to the solver holds exactly one entry per
non-zero-amount transaction — negated when the upper-cased description contains
one of PURCHASE/SIP/SWITCH IN/STP IN/DIVIDEND, as-is when it instead contains
one of REDEMPTION/SWITCH OUT/STP OUT/SWP, negated by default — with zero-amount
transactions dropped, followed by exactly one terminal entry
`(today, current_value)`; `calculate_metrics` passes exactly
`buildFlows transactions ++ [(today, current_val)]` to the solver. -/
theorem c2_cashflow_series (txns : List Transaction) (today : Nat) (cv : ℚ) :
    buildFlows txns ++ [(today, cv)] =
      (txns.filter (fun t => !(t.amount.getD 0 == 0))).map
        (fun t =>
          (t.date,
           if (["PURCHASE", "SIP", "SWITCH IN", "STP IN", "DIVIDEND"]).any
               (fun x => strContainsB (strUpper t.description) x) then
             -(t.amount.getD 0)
           else if (["REDEMPTION", "SWITCH OUT", "STP OUT", "SWP"]).any
               (fun x => strContainsB (strUpper t.description) x) then
             t.amount.getD 0
           else -(t.amount.getD 0))) ++ [(today, cv)] := by
  congr 1
  induction txns with
  | nil => rfl
  | cons t rest ih =>
    by_cases h : t.amount.getD 0 = 0
    · simp [buildFlows, List.filter_cons, h, ih]
    · simp only [buildFlows, h, if_false, List.filter_cons, beq_iff_eq,
        Bool.not_eq_true']
      rw [if_pos (by simp [h] : (t.amount.getD 0 == 0) = false), List.map_cons]
      exact congrArg₂ List.cons (by simp [signedAmount]) ih

/-- C3: a holding with at least one transaction whose filtered amount total is
positive, makes the value-to-invested ratio exceed 5, and is exceeded by the
recorded cost, is marked "Partial Data" with no xirr; the result does not
depend on the solver, and `invested_sum` is the sum of all transaction
amounts. -/
theorem c3_partial_data (solve : List (Nat × ℚ) → SolverOutcome) (today : Nat)
    (s : Scheme) (hne : s.transactions ≠ [])
    (hinv : 0 < invested_sum s.transactions)
    (hratio : s.valuation.value.getD 0 / invested_sum s.transactions > 5)
    (hcost : s.valuation.cost.getD 0 > invested_sum s.transactions) :
    calculate_metrics solve today s =
      (none,
       abs_return_of (s.valuation.value.getD 0) (s.valuation.cost.getD 0),
       "Partial Data") ∧
    invested_sum s.transactions =
      (s.transactions.map (fun t => t.amount.getD 0)).sum := by
  refine ⟨?_, invested_sum_eq_total_sum s.transactions⟩
  have hE := isEmpty_false_of_ne_nil hne
  have hpd : partialDataCond (s.valuation.value.getD 0)
      (s.valuation.cost.getD 0) (invested_sum s.transactions) = true := by
    simp only [partialDataCond, Bool.and_eq_true, decide_eq_true_eq]
    exact ⟨⟨hinv, hratio⟩, hcost⟩
  simp [calculate_metrics, hE, hpd]

/-- C3 witness: the spec's example — invested 1000, value 6000, cost 5500 —
yields "Partial Data" with no xirr, for any solver behaviour. -/
theorem c3_witness :
    calculate_metrics (solveConst 1) 7
        ⟨"X", [⟨0, some 1000, "PURCHASE"⟩], ⟨some 6000, some 5500⟩⟩ =
      (none, abs_return_of 6000 5500, "Partial Data") :=
  (c3_partial_data (solveConst 1) 7
    ⟨"X", [⟨0, some 1000, "PURCHASE"⟩], ⟨some 6000, some 5500⟩⟩
    (List.cons_ne_nil _ _)
    (by norm_num [invested_sum, amountTruthy])
    (by norm_num [invested_sum, amountTruthy])
    (by norm_num [invested_sum, amountTruthy])).1

/-- The partial-data test fails when the invested sum is not positive. -/
theorem partialDataCond_false_of_inv {cv tc inv : ℚ} (h : ¬(inv > 0)) :
    partialDataCond cv tc inv = false := by
  simp [partialDataCond, h]

/-- The partial-data test fails when the value-to-invested ratio is at most 5. -/
theorem partialDataCond_false_of_ratio {cv tc inv : ℚ} (h : ¬(cv / inv > 5)) :
    partialDataCond cv tc inv = false := by
  simp [partialDataCond, h]

/-- The partial-data test fails when the cost does not exceed the invested sum. -/
theorem partialDataCond_false_of_cost {cv tc inv : ℚ} (h : ¬(tc > inv)) :
    partialDataCond cv tc inv = false := by
  simp [partialDataCond, h]

/-- C4: when the solver converges to rate `r`, the calculator reports
"Data Mismatch" with no xirr (but with the absolute return) whenever the
percentage `r * 100` exceeds 100 or is below -90, and otherwise — boundary
values included — reports "OK" with `xirr = r * 100`. -/
theorem c4_sanity_bounds (solve : List (Nat × ℚ) → SolverOutcome) (today : Nat)
    (s : Scheme) (r : ℚ) (hne : s.transactions ≠ [])
    (hpd : partialDataCond (s.valuation.value.getD 0) (s.valuation.cost.getD 0)
      (invested_sum s.transactions) = false)
    (hsol : solve (buildFlows s.transactions ++
      [(today, s.valuation.value.getD 0)]) = .converged r) :
    ((r * 100 > 100 ∨ r * 100 < -90) →
      calculate_metrics solve today s =
        (none,
         abs_return_of (s.valuation.value.getD 0) (s.valuation.cost.getD 0),
         "Data Mismatch")) ∧
    (-90 ≤ r * 100 → r * 100 ≤ 100 →
      calculate_metrics solve today s =
        (some (r * 100),
         abs_return_of (s.valuation.value.getD 0) (s.valuation.cost.getD 0),
         "OK")) := by
  have hE := isEmpty_false_of_ne_nil hne
  constructor
  · intro h
    simp only [calculate_metrics, hE, Bool.false_eq_true, if_false, hpd, hsol]
    rw [if_pos h]
  · intro h1 h2
    simp only [calculate_metrics, hE, Bool.false_eq_true, if_false, hpd, hsol]
    rw [if_neg (by rintro (h | h) <;> linarith)]

/-- C4 witness: a converged rate of 1/4 (25%) is in bounds and yields "OK"
with xirr 25, while a converged rate of 2 (200%) yields "Data Mismatch". -/
theorem c4_witness :
    calculate_metrics (solveConst (1 / 4)) 9
        ⟨"F", [⟨0, some 100, "PURCHASE"⟩], ⟨some 110, some 100⟩⟩ =
      (some ((1 / 4 : ℚ) * 100), abs_return_of 110 100, "OK") ∧
    calculate_metrics (solveConst 2) 9
        ⟨"F", [⟨0, some 100, "PURCHASE"⟩], ⟨some 110, some 100⟩⟩ =
      (none, abs_return_of 110 100, "Data Mismatch") := by
  constructor
  · exact (c4_sanity_bounds (solveConst (1 / 4)) 9
      ⟨"F", [⟨0, some 100, "PURCHASE"⟩], ⟨some 110, some 100⟩⟩ (1 / 4)
      (List.cons_ne_nil _ _)
      (partialDataCond_false_of_ratio (by norm_num [invested_sum, amountTruthy]))
      rfl).2 (by norm_num) (by norm_num)
  · exact (c4_sanity_bounds (solveConst 2) 9
      ⟨"F", [⟨0, some 100, "PURCHASE"⟩], ⟨some 110, some 100⟩⟩ 2
      (List.cons_ne_nil _ _)
      (partialDataCond_false_of_ratio (by norm_num [invested_sum, amountTruthy]))
      rfl).1 (by norm_num)

/-- A scheme whose current value is below 100 leaves the loop state unchanged. -/
theorem processScheme_skip (solve : List (Nat × ℚ) → SolverOutcome) (today : Nat)
    (st : PState) (s : Scheme) (h : s.valuation.value.getD 0 < 100) :
    processScheme solve today st s = st := by
  simp [processScheme, h]

/-- A scheme whose current value is at least 100 appends its row and adds its
value, cost and commission loss to the running totals. -/
theorem processScheme_keep (solve : List (Nat × ℚ) → SolverOutcome) (today : Nat)
    (st : PState) (s : Scheme) (h : ¬(s.valuation.value.getD 0 < 100)) :
    processScheme solve today st s =
      { rows := st.rows ++ [mkRow solve today s],
        total_curr := st.total_curr + s.valuation.value.getD 0,
        total_invested := st.total_invested + s.valuation.cost.getD 0,
        total_commission_loss := st.total_commission_loss +
          (if !(strContainsB (strUpper s.scheme) "DIRECT") then
            s.valuation.value.getD 0 * (1 / 100)
          else 0) } := by
  simp [processScheme, h]

/-- Processing a list of schemes is the same as processing only those whose
current value is at least 100. -/
theorem processSchemes_filter (solve : List (Nat × ℚ) → SolverOutcome)
    (today : Nat) (schemes : List Scheme) :
    ∀ st, processSchemes solve today st schemes =
      processSchemes solve today st
        (schemes.filter (fun x => !decide (x.valuation.value.getD 0 < 100))) := by
  induction schemes with
  | nil => intro st; rfl
  | cons x xs ih =>
    intro st
    by_cases h : x.valuation.value.getD 0 < 100
    · have hf : (x :: xs).filter (fun x => !decide (x.valuation.value.getD 0 < 100)) =
          xs.filter (fun x => !decide (x.valuation.value.getD 0 < 100)) := by
        simp [List.filter_cons, h]
      calc processSchemes solve today st (x :: xs)
          = processSchemes solve today (processScheme solve today st x) xs := rfl
        _ = processSchemes solve today st xs := by
            rw [processScheme_skip solve today st x h]
        _ = _ := by rw [hf]; exact ih st
    · have hf : (x :: xs).filter (fun x => !decide (x.valuation.value.getD 0 < 100)) =
          x :: xs.filter (fun x => !decide (x.valuation.value.getD 0 < 100)) := by
        simp [List.filter_cons, h]
      calc processSchemes solve today st (x :: xs)
          = processSchemes solve today (processScheme solve today st x) xs := rfl
        _ = _ := by rw [hf]; exact ih _

/-- Each processed list contributes one row per kept scheme, for any solver. -/
theorem processSchemes_rows_length (solve : List (Nat × ℚ) → SolverOutcome)
    (today : Nat) (schemes : List Scheme) :
    ∀ st, (processSchemes solve today st schemes).rows.length =
      st.rows.length +
        (schemes.filter (fun x => !decide (x.valuation.value.getD 0 < 100))).length := by
  induction schemes with
  | nil => intro st; simp [processSchemes]
  | cons x xs ih =>
    intro st
    rw [show processSchemes solve today st (x :: xs) =
      processSchemes solve today (processScheme solve today st x) xs from rfl]
    by_cases h : x.valuation.value.getD 0 < 100
    · rw [processScheme_skip solve today st x h, ih st]
      simp [List.filter_cons, h]
    · rw [ih _, processScheme_keep solve today st x h]
      have hf : (x :: xs).filter (fun x => !decide (x.valuation.value.getD 0 < 100)) =
          x :: xs.filter (fun x => !decide (x.valuation.value.getD 0 < 100)) := by
        simp [List.filter_cons, h]
      rw [hf]
      simp only [List.length_cons, List.length_append, List.length_singleton,
        List.length_nil]
      omega

/-- C7: a holding with current value below 100 contributes nothing — the loop
state (rows, total value, total invested, total commission loss, and hence
every sub-category count) is unchanged, and processing a list equals
processing its ≥ 100 sublist; a holding with value at least 100 is always
processed: its row is appended and its value, cost and commission loss are
added, its sub-category count increased by one. -/
theorem c7_negligible_holdings (solve : List (Nat × ℚ) → SolverOutcome)
    (today : Nat) (st : PState) (schemes : List Scheme) (s : Scheme) :
    processSchemes solve today st schemes =
      processSchemes solve today st
        (schemes.filter (fun x => !decide (x.valuation.value.getD 0 < 100))) ∧
    (s.valuation.value.getD 0 < 100 → processScheme solve today st s = st) ∧
    (100 ≤ s.valuation.value.getD 0 →
      (processScheme solve today st s).rows = st.rows ++ [mkRow solve today s] ∧
      (processScheme solve today st s).total_curr =
        st.total_curr + s.valuation.value.getD 0 ∧
      (processScheme solve today st s).total_invested =
        st.total_invested + s.valuation.cost.getD 0 ∧
      (processScheme solve today st s).total_commission_loss =
        st.total_commission_loss +
          (if !(strContainsB (strUpper s.scheme) "DIRECT") then
            s.valuation.value.getD 0 * (1 / 100)
          else 0) ∧
      ∀ c, subCatCount (processScheme solve today st s).rows c =
        subCatCount st.rows c +
          (if (mkRow solve today s).subCategory == c then 1 else 0)) := by
  refine ⟨processSchemes_filter solve today schemes st,
    processScheme_skip solve today st s, ?_⟩
  intro h
  rw [processScheme_keep solve today st s (not_lt.mpr h)]
  refine ⟨rfl, rfl, rfl, rfl, ?_⟩
  intro c
  cases hc : (mkRow solve today s).subCategory == c <;>
    simp [subCatCount, List.filter_append, hc]

/-- C7 witness: a holding worth 50 leaves the state untouched; one worth 200
is appended as a row. -/
theorem c7_witness :
    processScheme solveNone 0 ⟨[], 0, 0, 0⟩ ⟨"Tiny Fund", [], ⟨some 50, some 10⟩⟩ =
      ⟨[], 0, 0, 0⟩ ∧
    (processScheme solveNone 0 ⟨[], 0, 0, 0⟩
        ⟨"Big Fund", [], ⟨some 200, some 150⟩⟩).rows =
      [] ++ [mkRow solveNone 0 ⟨"Big Fund", [], ⟨some 200, some 150⟩⟩] := by
  constructor
  · exact (c7_negligible_holdings solveNone 0 ⟨[], 0, 0, 0⟩ []
      ⟨"Tiny Fund", [], ⟨some 50, some 10⟩⟩).2.1 (by decide)
  · exact ((c7_negligible_holdings solveNone 0 ⟨[], 0, 0, 0⟩ []
      ⟨"Big Fund", [], ⟨some 200, some 150⟩⟩).2.2 (by decide)).1

/-- C8: a raised solver exception is caught inside the per-holding calculator,
which returns status "Error", no xirr and the step-1 absolute return; and for
any solver behaviour every kept holding still yields exactly one report row,
so one holding's failure cannot abort the rest. -/
theorem c8_error_isolation (solve : List (Nat × ℚ) → SolverOutcome)
    (today : Nat) (s : Scheme) (st : PState) (schemes : List Scheme)
    (hne : s.transactions ≠ [])
    (hpd : partialDataCond (s.valuation.value.getD 0) (s.valuation.cost.getD 0)
      (invested_sum s.transactions) = false)
    (hsol : solve (buildFlows s.transactions ++
      [(today, s.valuation.value.getD 0)]) = .raised) :
    calculate_metrics solve today s =
      (none,
       abs_return_of (s.valuation.value.getD 0) (s.valuation.cost.getD 0),
       "Error") ∧
    (processSchemes solve today st schemes).rows.length =
      st.rows.length +
        (schemes.filter (fun x => !decide (x.valuation.value.getD 0 < 100))).length := by
  refine ⟨?_, processSchemes_rows_length solve today schemes st⟩
  have hE := isEmpty_false_of_ne_nil hne
  simp only [calculate_metrics, hE, Bool.false_eq_true, if_false, hpd, hsol]

/-- C8 witness: a solver that always raises still yields an "Error" row for the
affected holding and one row per kept holding over a two-holding list. -/
theorem c8_witness :
    calculate_metrics solveRaise 3
        ⟨"F", [⟨0, some 100, "PURCHASE"⟩], ⟨some 200, some 100⟩⟩ =
      (none, abs_return_of 200 100, "Error") ∧
    (processSchemes solveRaise 3 ⟨[], 0, 0, 0⟩
        [⟨"F", [⟨0, some 100, "PURCHASE"⟩], ⟨some 200, some 100⟩⟩,
         ⟨"Tiny", [], ⟨some 50, none⟩⟩]).rows.length = 1 :=
  c8_error_isolation solveRaise 3
    ⟨"F", [⟨0, some 100, "PURCHASE"⟩], ⟨some 200, some 100⟩⟩ ⟨[], 0, 0, 0⟩
    [⟨"F", [⟨0, some 100, "PURCHASE"⟩], ⟨some 200, some 100⟩⟩,
     ⟨"Tiny", [], ⟨some 50, none⟩⟩]
    (List.cons_ne_nil _ _)
    (partialDataCond_false_of_ratio (by norm_num [invested_sum, amountTruthy]))
    rfl

/-- When every transaction amount is zero or absent, the filtered sum is zero. -/
theorem invested_sum_eq_zero_of_all_zero (txns : List Transaction)
    (hz : ∀ t ∈ txns, t.amount.getD 0 = 0) : invested_sum txns = 0 := by
  rw [invested_sum_eq_total_sum]
  refine List.sum_eq_zero ?_
  intro x hx
  obtain ⟨t, ht, rfl⟩ := List.mem_map.mp hx
  exact hz t ht

/-- When every transaction amount is zero or absent, no cash-flow entry is
emitted. -/
theorem buildFlows_eq_nil_of_all_zero (txns : List Transaction)
    (hz : ∀ t ∈ txns, t.amount.getD 0 = 0) : buildFlows txns = [] := by
  induction txns with
  | nil => rfl
  | cons t rest ih =>
    have h0 : t.amount.getD 0 = 0 := hz t (List.mem_cons_self t rest)
    rw [buildFlows, if_pos h0]
    exact ih (fun u hu => hz u (List.mem_cons_of_mem t hu))

/-- C9: a holding whose recorded cost is absent or zero is never marked
"Partial Data": with no transactions it is "No History", and otherwise the
result (with absolute return 0) is exactly the solver-branch outcome. -/
theorem c9_zero_cost_never_partial_data (solve : List (Nat × ℚ) → SolverOutcome)
    (today : Nat) (s : Scheme) (hc : s.valuation.cost.getD 0 = 0) :
    (calculate_metrics solve today s).2.2 ≠ "Partial Data" ∧
    (s.transactions = [] →
      calculate_metrics solve today s = (none, 0, "No History")) ∧
    (s.transactions ≠ [] →
      calculate_metrics solve today s =
        (match solve (buildFlows s.transactions ++
            [(today, s.valuation.value.getD 0)]) with
         | .raised => (none, 0, "Error")
         | .noResult => (none, 0, "Calc Error")
         | .converged res =>
           if res * 100 > 100 ∨ res * 100 < -90 then (none, 0, "Data Mismatch")
           else (some (res * 100), 0, "OK"))) := by
  have habs : abs_return_of (s.valuation.value.getD 0)
      (s.valuation.cost.getD 0) = 0 := by
    rw [hc]
    simp [abs_return_of]
  have hpd : partialDataCond (s.valuation.value.getD 0)
      (s.valuation.cost.getD 0) (invested_sum s.transactions) = false := by
    by_cases h : invested_sum s.transactions > 0
    · exact partialDataCond_false_of_cost (by rw [hc]; linarith)
    · exact partialDataCond_false_of_inv h
  have hempCase : s.transactions = [] →
      calculate_metrics solve today s = (none, 0, "No History") := by
    intro h
    simp [calculate_metrics, h, habs]
  have hneCase : s.transactions ≠ [] →
      calculate_metrics solve today s =
        (match solve (buildFlows s.transactions ++
            [(today, s.valuation.value.getD 0)]) with
         | .raised => (none, 0, "Error")
         | .noResult => (none, 0, "Calc Error")
         | .converged res =>
           if res * 100 > 100 ∨ res * 100 < -90 then (none, 0, "Data Mismatch")
           else (some (res * 100), 0, "OK")) := by
    intro hne
    have hE := isEmpty_false_of_ne_nil hne
    cases hsol : solve (buildFlows s.transactions ++
        [(today, s.valuation.value.getD 0)]) with
    | raised =>
      simp only [calculate_metrics, hE, Bool.false_eq_true, if_false, hpd,
        hsol, habs]
    | noResult =>
      simp only [calculate_metrics, hE, Bool.false_eq_true, if_false, hpd,
        hsol, habs]
    | converged r =>
      simp only [calculate_metrics, hE, Bool.false_eq_true, if_false, hpd,
        hsol, habs]
  refine ⟨?_, hempCase, hneCase⟩
  by_cases hemp : s.transactions = []
  · rw [hempCase hemp]
    decide
  · rw [hneCase hemp]
    cases hsol : solve (buildFlows s.transactions ++
        [(today, s.valuation.value.getD 0)]) with
    | raised => decide
    | noResult => decide
    | converged r =>
      show (if r * 100 > 100 ∨ r * 100 < -90 then
          ((none : Option ℚ), (0 : ℚ), "Data Mismatch")
        else (some (r * 100), 0, "OK")).2.2 ≠ "Partial Data"
      by_cases h2 : (r * 100 > 100 ∨ r * 100 < -90)
      · rw [if_pos h2]
        exact (by decide : ("Data Mismatch" : String) ≠ "Partial Data")
      · rw [if_neg h2]
        exact (by decide : ("OK" : String) ≠ "Partial Data")

/-- C9 witness: a holding with an absent cost, a single 1000 purchase and a
6× current value still reaches the solver ("OK"), never "Partial Data". -/
theorem c9_witness :
    (calculate_metrics (solveConst (1 / 2)) 7
        ⟨"F", [⟨0, some 1000, "PURCHASE"⟩], ⟨some 6000, none⟩⟩).2.2 ≠
      "Partial Data" :=
  (c9_zero_cost_never_partial_data (solveConst (1 / 2)) 7
    ⟨"F", [⟨0, some 1000, "PURCHASE"⟩], ⟨some 6000, none⟩⟩ rfl).1

/-- C10: a holding with a non-empty transaction list in which every amount is
zero or absent is not "No History"; the partial-data rule cannot fire (the
invested sum is 0) and no per-transaction entry is emitted, so the solver is
invoked on the single terminal entry `(today, current_value)` and the result
is the solver-branch outcome on that series. -/
theorem c10_zero_amount_history (solve : List (Nat × ℚ) → SolverOutcome)
    (today : Nat) (s : Scheme) (hne : s.transactions ≠ [])
    (hz : ∀ t ∈ s.transactions, t.amount.getD 0 = 0) :
    (calculate_metrics solve today s).2.2 ≠ "No History" ∧
    invested_sum s.transactions = 0 ∧
    buildFlows s.transactions = [] ∧
    calculate_metrics solve today s =
      (match solve [(today, s.valuation.value.getD 0)] with
       | .raised =>
         (none,
          abs_return_of (s.valuation.value.getD 0) (s.valuation.cost.getD 0),
          "Error")
       | .noResult =>
         (none,
          abs_return_of (s.valuation.value.getD 0) (s.valuation.cost.getD 0),
          "Calc Error")
       | .converged res =>
         if res * 100 > 100 ∨ res * 100 < -90 then
           (none,
            abs_return_of (s.valuation.value.getD 0) (s.valuation.cost.getD 0),
            "Data Mismatch")
         else
           (some (res * 100),
            abs_return_of (s.valuation.value.getD 0) (s.valuation.cost.getD 0),
            "OK")) := by
  have hinv := invested_sum_eq_zero_of_all_zero s.transactions hz
  have hbf := buildFlows_eq_nil_of_all_zero s.transactions hz
  have hpd : partialDataCond (s.valuation.value.getD 0)
      (s.valuation.cost.getD 0) (invested_sum s.transactions) = false :=
    partialDataCond_false_of_inv (by rw [hinv]; exact lt_irrefl 0)
  have hE := isEmpty_false_of_ne_nil hne
  have hmain : calculate_metrics solve today s =
      (match solve [(today, s.valuation.value.getD 0)] with
       | .raised =>
         (none,
          abs_return_of (s.valuation.value.getD 0) (s.valuation.cost.getD 0),
          "Error")
       | .noResult =>
         (none,
          abs_return_of (s.valuation.value.getD 0) (s.valuation.cost.getD 0),
          "Calc Error")
       | .converged res =>
         if res * 100 > 100 ∨ res * 100 < -90 then
           (none,
            abs_return_of (s.valuation.value.getD 0) (s.valuation.cost.getD 0),
            "Data Mismatch")
         else
           (some (res * 100),
            abs_return_of (s.valuation.value.getD 0) (s.valuation.cost.getD 0),
            "OK")) := by
    cases hsol : solve [(today, s.valuation.value.getD 0)] with
    | raised =>
      simp only [calculate_metrics, hE, Bool.false_eq_true, if_false, hpd,
        hbf, List.nil_append, hsol]
    | noResult =>
      simp only [calculate_metrics, hE, Bool.false_eq_true, if_false, hpd,
        hbf, List.nil_append, hsol]
    | converged r =>
      simp only [calculate_metrics, hE, Bool.false_eq_true, if_false, hpd,
        hbf, List.nil_append, hsol]
  refine ⟨?_, hinv, hbf, hmain⟩
  rw [hmain]
  cases hsol : solve [(today, s.valuation.value.getD 0)] with
  | raised => exact (by decide : ("Error" : String) ≠ "No History")
  | noResult => exact (by decide : ("Calc Error" : String) ≠ "No History")
  | converged r =>
    show (if r * 100 > 100 ∨ r * 100 < -90 then
        ((none : Option ℚ),
         abs_return_of (s.valuation.value.getD 0) (s.valuation.cost.getD 0),
         "Data Mismatch")
      else
        (some (r * 100),
         abs_return_of (s.valuation.value.getD 0) (s.valuation.cost.getD 0),
         "OK")).2.2 ≠ "No History"
    by_cases h2 : (r * 100 > 100 ∨ r * 100 < -90)
    · rw [if_pos h2]
      exact (by decide : ("Data Mismatch" : String) ≠ "No History")
    · rw [if_neg h2]
      exact (by decide : ("OK" : String) ≠ "No History")

/-- C10 witness: two transactions (absent amount, zero amount) with a solver
converging to 2 (200%): not "No History", and the 200% rate is rejected as
"Data Mismatch". -/
theorem c10_witness :
    (calculate_metrics (solveConst 2) 9
        ⟨"F", [⟨2, none, "STAMP DUTY"⟩, ⟨3, some 0, "MISC"⟩],
         ⟨some 500, some 400⟩⟩).2.2 ≠ "No History" ∧
    calculate_metrics (solveConst 2) 9
        ⟨"F", [⟨2, none, "STAMP DUTY"⟩, ⟨3, some 0, "MISC"⟩],
         ⟨some 500, some 400⟩⟩ =
      (none, abs_return_of 500 400, "Data Mismatch") := by
  have h := c10_zero_amount_history (solveConst 2) 9
    ⟨"F", [⟨2, none, "STAMP DUTY"⟩, ⟨3, some 0, "MISC"⟩], ⟨some 500, some 400⟩⟩
    (List.cons_ne_nil _ _) (by decide)
  refine ⟨h.1, ?_⟩
  rw [h.2.2.2]
  norm_num [solveConst]
